import Mathlib

/-!
Shallow embedding of the quote-verification and route-validation logic of the
sqs end-to-end test suite (tests/quote.py, tests/e2e_math.py, tests/route.py,
tests/conftest.py, tests/test_router_quote.py).

Numbers: Python ints are modelled as Int, Python float/Decimal values that the
code only builds from decimal literals and field operations are modelled as Rat.
Python functions that can raise are modelled with Option/Except.
-/

deriving instance DecidableEq for Except

/-- Embeds relative_error from tests/e2e_math.py:
abs(a - b) / max(abs(a), abs(b)).  When both arguments are zero the Python
division raises ZeroDivisionError; that case is modelled as none. -/
def relative_error (a b : ℚ) : Option ℚ :=
  if max |a| |b| = 0 then none
  else some (|a - b| / max |a| |b|)

/-- Embeds Quote.choose_error_tolerance from tests/quote.py lines 14 to 29
(the identical copy lives in tests/test_router_quote.py lines 363 to 378).
The float literals 0.07, 0.10, 0.13, 0.16 are modelled as exact rationals. -/
def choose_error_tolerance (amount : ℤ) : ℚ :=
  if amount > 60000000000 then 16/100
  else if amount > 30000000000 then 13/100
  else if amount > 10000000000 then 10/100
  else 7/100

/-- Embeds the dynamic tolerance-widening step of validate_quote_test
(tests/quote.py lines 216 to 217, tests/test_router_quote.py lines 310 to 312):
if price_impact_positive > error_tolerance then the tolerance becomes
price_impact_positive * (1 + error_tolerance), otherwise it is unchanged. -/
def adjust_for_price_impact (error_tolerance price_impact_positive : ℚ) : ℚ :=
  if price_impact_positive > error_tolerance then
    price_impact_positive * (1 + error_tolerance)
  else error_tolerance

/-- Decides whether the character list pat occurs contiguously at the head of s;
helper for the Python substring operator. -/
def char_list_starts_with : List Char → List Char → Bool
  | _, [] => true
  | [], _ :: _ => false
  | c :: cs, d :: ds => c == d && char_list_starts_with cs ds

/-- Decides whether the character list pat occurs contiguously anywhere in s;
helper for the Python substring operator. -/
def char_list_has_sub : List Char → List Char → Bool
  | [], pat => pat.isEmpty
  | c :: cs, pat => char_list_starts_with (c :: cs) pat || char_list_has_sub cs pat

/-- Embeds the Python substring test, as in the expression
"all" not in token_out_denom of tests/quote.py. -/
def contains_substr (s pat : String) : Bool :=
  char_list_has_sub s.data pat.data

/-- Embeds a pool hop of a quoted route (fields id, tokenInDenom,
tokenOutDenom of the route pool objects in tests/quote_response.py). -/
structure PoolHop where
  id : ℕ
  token_in_denom : String
  token_out_denom : String
deriving DecidableEq

/-- Embeds a route of a quote response: an ordered list of pool hops. -/
structure Route where
  pools : List PoolHop
deriving DecidableEq

/-- Embeds a coin of a quote response: denom plus integer amount. -/
structure Coin where
  denom : String
  amount : ℤ
deriving DecidableEq

/-- Embeds the pool_tokens field of a Numia pool record: either the
asset0/asset1 dictionary used by concentrated pools (a missing or empty denom
is modelled as none) or a list of token records (a record without a denom key
is modelled as none). -/
inductive PoolTokens where
  | dict (asset0 asset1 : Option String)
  | tokenList (tokens : List (Option String))
deriving DecidableEq

/-- Embeds get_denoms_from_pool_tokens from tests/conftest.py lines 211 to 227:
the dictionary case collects asset0/asset1 denoms and drops falsy entries
(missing or empty strings); the list case collects the denom of every record
that has one. -/
def get_denoms_from_pool_tokens : PoolTokens → List String
  | PoolTokens.dict asset0 asset1 =>
      ([asset0, asset1].filterMap id).filter (fun d => d ≠ "")
  | PoolTokens.tokenList tokens => tokens.filterMap id

/-- Embeds a Numia pool record as read by the classifier and the route
validator: the raw type string, the optional embedded code id (an absent
code_id key is modelled as none) and the pool_tokens field. -/
structure NumiaPool where
  type : String
  code_id : Option ℤ
  pool_tokens : PoolTokens
deriving DecidableEq

/-- Embeds the E2EPoolType enum of tests/conftest.py lines 112 to 119. -/
inductive E2EPoolType where
  | BALANCER
  | STABLESWAP
  | CONCENTRATED
  | COSMWASM_MISC
  | COSMWASM_TRANSMUTER_V1
  | COSMWASM_ASTROPORT
  | COSMWASM_ORDERBOOK
deriving DecidableEq

/-- Embeds NumiaPoolType.BALANCER.value of tests/conftest.py. -/
def NumiaPoolType_BALANCER : String := "osmosis.gamm.v1beta1.Pool"

/-- Embeds NumiaPoolType.STABLESWAP.value of tests/conftest.py. -/
def NumiaPoolType_STABLESWAP : String := "osmosis.gamm.poolmodels.stableswap.v1beta1.Pool"

/-- Embeds NumiaPoolType.CONCENTRATED.value of tests/conftest.py. -/
def NumiaPoolType_CONCENTRATED : String := "osmosis.concentratedliquidity.v1beta1.Pool"

/-- Embeds NumiaPoolType.COSMWASM.value of tests/conftest.py. -/
def NumiaPoolType_COSMWASM : String := "osmosis.cosmwasmpool.v1beta1.CosmWasmPool"

/-- Embeds TRANSMUTER_CODE_ID = 148 of tests/conftest.py. -/
def TRANSMUTER_CODE_ID : ℤ := 148

/-- Embeds ASTROPORT_CODE_ID = 773 of tests/conftest.py. -/
def ASTROPORT_CODE_ID : ℤ := 773

/-- Embeds ORDERBOOK_CODE_ID = 885 of tests/conftest.py. -/
def ORDERBOOK_CODE_ID : ℤ := 885

/-- Embeds the NUMIA_TO_E2E_MAP dictionary of tests/conftest.py lines 122 to
126, as a lookup returning none for keys outside the map. -/
def NUMIA_TO_E2E_MAP (s : String) : Option E2EPoolType :=
  if s = NumiaPoolType_BALANCER then some E2EPoolType.BALANCER
  else if s = NumiaPoolType_STABLESWAP then some E2EPoolType.STABLESWAP
  else if s = NumiaPoolType_CONCENTRATED then some E2EPoolType.CONCENTRATED
  else none

/-- Errors the classifier can raise: the ValueError for an unrecognized raw
type string, and the TypeError from int(None) when the code_id key is absent
on a CosmWasm pool. -/
inductive ClassifyError where
  | unknownPoolType (t : String)
  | missingCodeId
deriving DecidableEq

/-- Embeds get_e2e_pool_type_from_numia_pool from tests/conftest.py lines 187
to 208: direct map lookup first, then code-id dispatch for the CosmWasm raw
type, and a raised error for every other raw type string. -/
def get_e2e_pool_type_from_numia_pool (pool : NumiaPool) : Except ClassifyError E2EPoolType :=
  match NUMIA_TO_E2E_MAP pool.type with
  | some t => Except.ok t
  | none =>
    if pool.type = NumiaPoolType_COSMWASM then
      match pool.code_id with
      | none => Except.error ClassifyError.missingCodeId
      | some pool_code_id =>
        if pool_code_id = TRANSMUTER_CODE_ID then Except.ok E2EPoolType.COSMWASM_TRANSMUTER_V1
        else if pool_code_id = ASTROPORT_CODE_ID then Except.ok E2EPoolType.COSMWASM_ASTROPORT
        else if pool_code_id = ORDERBOOK_CODE_ID then Except.ok E2EPoolType.COSMWASM_ORDERBOOK
        else Except.ok E2EPoolType.COSMWASM_MISC
    else Except.error (ClassifyError.unknownPoolType pool.type)

/-- Embeds Quote.is_transmuter_in_single_route from tests/quote.py lines 31 to
44.  The pool map is keyed by the decimal string of the pool id, exactly as
pool_by_id_map.get(str(pool_in_route.id)).  A failed map lookup or a
classifier error makes the Python code raise, modelled as none; otherwise the
boolean answer is returned. -/
def is_transmuter_in_single_route (pool_by_id_map : String → Option NumiaPool)
    (routes : List Route) : Option Bool :=
  match routes with
  | [route] =>
    match route.pools with
    | [pool_in_route] =>
      match pool_by_id_map (toString pool_in_route.id) with
      | none => none
      | some pool =>
        match get_e2e_pool_type_from_numia_pool pool with
        | Except.error _ => none
        | Except.ok t => some (decide (t = E2EPoolType.COSMWASM_TRANSMUTER_V1))
    | _ => some false
  | _ => some false

/-- Embeds the price-impact assertion of validate_quote_test (tests/quote.py
line 195, tests/test_router_quote.py line 293): the asserted Python expression
(not is_transmuter_route) and (price_impact < 0) or (is_transmuter_route) and
(price_impact == 0). -/
def price_impact_sign_check (is_transmuter_route : Bool) (price_impact : ℚ) : Bool :=
  (!is_transmuter_route && decide (price_impact < 0)) ||
    (is_transmuter_route && decide (price_impact = 0))

/-- Errors route validation can raise, one per assert of
ExactAmountOutQuote.validate_route and Quote.validate_pool_denoms_in_route in
tests/quote.py (the formatted messages are dropped). -/
inductive RouteError where
  | tokenOutFalsy (token_out_denom : String)
  | tokenInFalsy (token_in_denom : String)
  | poolNotFound (id : ℕ)
  | lastRouteTokenInMismatch (denom_in : String)
  | lastQuoteTokenInMismatch (denom_in : String)
deriving DecidableEq

/-- Embeds Quote.validate_pool_denoms_in_route from tests/quote.py lines 58 to
71.  The two asserts there are assert token_out_denom and assert
token_in_denom, each guarded by the synthetic-denom exemption
"all" not in denom: so a denom fails only when it lacks the substring "all"
and is the empty string (falsy); the denoms argument is received but never
consulted. -/
def validate_pool_denoms_in_route (token_in_denom token_out_denom : String)
    (denoms : List String) (pool_id : ℕ) (route_denom_in route_denom_out : String) :
    Except RouteError Unit :=
  if contains_substr token_out_denom "all" = false ∧ token_out_denom = "" then
    Except.error (RouteError.tokenOutFalsy token_out_denom)
  else if contains_substr token_in_denom "all" = false ∧ token_in_denom = "" then
    Except.error (RouteError.tokenInFalsy token_in_denom)
  else Except.ok ()

/-- Embeds a quote response with the fields the validators read
(tests/quote_response.py). -/
structure QuoteResponse where
  amount_in : Coin
  amount_out : Coin
  route : List Route
  effective_fee : ℚ
  price_impact : ℚ
  in_base_out_quote_spot_price : ℚ
deriving DecidableEq

/-- Embeds get_last_route_token_in from tests/route.py lines 7 to 11: the
token_in_denom of the last pool of the route, or the empty string for an empty
route. -/
def get_last_route_token_in (route : Route) : String :=
  route.pools.foldl (fun _ pool => pool.token_in_denom) ""

/-- Embeds get_last_quote_route_token_in from tests/route.py lines 14 to 19:
the loop variable after iterating over every pool of every route, threading the
accumulator across routes. -/
def get_last_quote_route_token_in (quote : QuoteResponse) : String :=
  quote.route.foldl (fun acc route => route.pools.foldl (fun _ pool => pool.token_in_denom) acc) ""

/-- Embeds the inner pool loop of ExactAmountOutQuote.validate_route
(tests/quote.py lines 230 to 242): for each hop, look the pool up by id (the
assert pool fails when the lookup misses), extract its denoms and run
Quote.validate_pool_denoms_in_route, then thread cur_out_denom to the hop's
token_in_denom. -/
def validate_route_hops (pool_by_id_map : String → Option NumiaPool)
    (pools : List PoolHop) (cur_out_denom denom_in denom_out : String) :
    Except RouteError Unit :=
  match pools with
  | [] => Except.ok ()
  | p :: rest =>
    match pool_by_id_map (toString p.id) with
    | none => Except.error (RouteError.poolNotFound p.id)
    | some pool =>
      match validate_pool_denoms_in_route p.token_in_denom cur_out_denom
          (get_denoms_from_pool_tokens pool.pool_tokens) p.id denom_in denom_out with
      | Except.error e => Except.error e
      | Except.ok _ => validate_route_hops pool_by_id_map rest p.token_in_denom denom_in denom_out

/-- Embeds the outer route loop of ExactAmountOutQuote.validate_route
(tests/quote.py lines 230 to 246): per route, validate the hops starting from
denom_out, and unless the quote is a direct quote assert that denom_in equals
the route's last token in. -/
def validate_route_list (pool_by_id_map : String → Option NumiaPool)
    (routes : List Route) (denom_in denom_out : String) (direct_quote : Bool) :
    Except RouteError Unit :=
  match routes with
  | [] => Except.ok ()
  | route :: rest =>
    match validate_route_hops pool_by_id_map route.pools denom_out denom_in denom_out with
    | Except.error e => Except.error e
    | Except.ok _ =>
      if direct_quote then validate_route_list pool_by_id_map rest denom_in denom_out direct_quote
      else if denom_in = get_last_route_token_in route then
        validate_route_list pool_by_id_map rest denom_in denom_out direct_quote
      else Except.error (RouteError.lastRouteTokenInMismatch denom_in)

/-- Embeds ExactAmountOutQuote.validate_route from tests/quote.py lines 223 to
250: the route loop, then for direct quotes a single endpoint assert against
the whole quote. -/
def ExactAmountOutQuote_validate_route (pool_by_id_map : String → Option NumiaPool)
    (quote : QuoteResponse) (denom_in denom_out : String) (direct_quote : Bool) :
    Except RouteError Unit :=
  match validate_route_list pool_by_id_map quote.route denom_in denom_out direct_quote with
  | Except.error e => Except.error e
  | Except.ok _ =>
    if direct_quote then
      if denom_in = get_last_quote_route_token_in quote then Except.ok ()
      else Except.error (RouteError.lastQuoteTokenInMismatch denom_in)
    else Except.ok ()

/-- Errors the value-comparison slice of validate_quote_test can raise: the
ZeroDivisionError from relative_error and the two tolerance asserts. -/
inductive QuoteCheckError where
  | divisionByZero
  | spotPriceOutOfTolerance
  | amountOutOfTolerance
deriving DecidableEq

/-- Embeds one assert of the form
assert relative_error(a, b) < tolerance of validate_quote_test: the error e is
raised when the comparison fails, and the ZeroDivisionError propagates when
relative_error is undefined. -/
def assert_relative_error_lt (a b tolerance : ℚ) (e : QuoteCheckError) :
    Except QuoteCheckError Unit :=
  match relative_error a b with
  | none => Except.error QuoteCheckError.divisionByZero
  | some err => if err < tolerance then Except.ok () else Except.error e

/-- Embeds the value-comparison slice of validate_quote_test (tests/quote.py
lines 211 to 221, tests/test_router_quote.py lines 306 to 316): first the
spot-price assert at the base tolerance, then the price-impact widening, then
the counter-amount assert at the widened tolerance.  The asserts run in
sequence, so the first failure aborts the call. -/
def validate_spot_price_and_amount (in_base_out_quote_spot_price spot_price_scaling_factor
    expected_in_base_out_quote_price amount_scaled expected_token error_tolerance
    price_impact_positive : ℚ) : Except QuoteCheckError Unit :=
  match assert_relative_error_lt
      (in_base_out_quote_spot_price * spot_price_scaling_factor)
      expected_in_base_out_quote_price error_tolerance
      QuoteCheckError.spotPriceOutOfTolerance with
  | Except.error e => Except.error e
  | Except.ok _ =>
    assert_relative_error_lt (amount_scaled * spot_price_scaling_factor) expected_token
      (adjust_for_price_impact error_tolerance price_impact_positive)
      QuoteCheckError.amountOutOfTolerance

/-- Errors fee validation can raise, one per assert of Quote.validate_fee and
ExactAmountInQuote.validate_fee in tests/quote.py. -/
inductive FeeError where
  | takerFeeUnavailable (token_in_denom token_out_denom : String)
  | nonZeroTakerFee (pool_id : ℕ)
  | nonPositiveEffectiveFee
deriving DecidableEq

/-- Embeds Quote.validate_fee from tests/quote.py lines 46 to 55.  The fee
source stands for CHAIN_SERVICE.get_trading_pair_taker_fee; a none result
trips the availability assert.  The line comparing taker_fee_decimal to
actual_fee is a bare expression in the source, not an assert, so it has no
effect; the call fails exactly when the sourced taker fee is nonzero. -/
def Quote_validate_fee (fee_source : String → String → Option ℚ)
    (token_in_denom token_out_denom : String) (actual_fee : ℚ) (pool_id : ℕ) :
    Except FeeError Unit :=
  match fee_source token_in_denom token_out_denom with
  | none => Except.error (FeeError.takerFeeUnavailable token_in_denom token_out_denom)
  | some taker_fee_decimal =>
    if taker_fee_decimal ≠ 0 then Except.error (FeeError.nonZeroTakerFee pool_id)
    else Except.ok ()

/-- Embeds the inner pool loop of ExactAmountInQuote.validate_fee
(tests/quote.py lines 86 to 95): per hop, check the sourced fee for the pair
(cur_token_in, pool.token_out_denom), then thread cur_token_in to the hop's
token_out_denom. -/
def validate_fee_pools (fee_source : String → String → Option ℚ) (effective_fee : ℚ)
    (cur_token_in : String) (pools : List PoolHop) : Except FeeError Unit :=
  match pools with
  | [] => Except.ok ()
  | pool :: rest =>
    match Quote_validate_fee fee_source cur_token_in pool.token_out_denom effective_fee pool.id with
    | Except.error e => Except.error e
    | Except.ok _ => validate_fee_pools fee_source effective_fee pool.token_out_denom rest

/-- Embeds the route loop of ExactAmountInQuote.validate_fee: each route is
walked with cur_token_in reset to the quote's input denom. -/
def validate_fee_routes (fee_source : String → String → Option ℚ) (effective_fee : ℚ)
    (token_in : String) (routes : List Route) : Except FeeError Unit :=
  match routes with
  | [] => Except.ok ()
  | route :: rest =>
    match validate_fee_pools fee_source effective_fee token_in route.pools with
    | Except.error e => Except.error e
    | Except.ok _ => validate_fee_routes fee_source effective_fee token_in rest

/-- Embeds ExactAmountInQuote.validate_fee from tests/quote.py lines 74 to 97:
when the effective fee is zero every hop of every route is cross-checked
against the external fee source; otherwise the only assert is that the
effective fee is positive. -/
def ExactAmountInQuote_validate_fee (fee_source : String → String → Option ℚ)
    (quote : QuoteResponse) : Except FeeError Unit :=
  if quote.effective_fee = 0 then
    validate_fee_routes fee_source quote.effective_fee quote.amount_in.denom quote.route
  else if quote.effective_fee > 0 then Except.ok ()
  else Except.error FeeError.nonPositiveEffectiveFee

/-- Collects the (token in, token out) pairs whose fees the inner loop of
ExactAmountInQuote.validate_fee consults, in loop order. -/
def route_fee_pairs (cur_token_in : String) (pools : List PoolHop) : List (String × String) :=
  match pools with
  | [] => []
  | pool :: rest => (cur_token_in, pool.token_out_denom) :: route_fee_pairs pool.token_out_denom rest

/-- Collects the fee pairs of every route of a quote, each route starting from
the quote's input denom. -/
def quote_fee_pairs (token_in : String) (routes : List Route) : List (String × String) :=
  match routes with
  | [] => []
  | route :: rest => route_fee_pairs token_in route.pools ++ quote_fee_pairs token_in rest

/-- Concrete transmuter pool record used by witnesses: the CosmWasm raw type
with the transmuter code id. -/
def transmuter_pool_fixture : NumiaPool :=
  { type := NumiaPoolType_COSMWASM
    code_id := some 148
    pool_tokens := PoolTokens.tokenList [some "uusdc", some "uusdt"] }

/-- Concrete pool map used by witnesses: pool id 1 is the transmuter fixture. -/
def pool_map_fixture : String → Option NumiaPool :=
  fun s => if s = "1" then some transmuter_pool_fixture else none

/-- Concrete single-hop route list used by witnesses, routed through pool 1. -/
def routes_fixture : List Route :=
  [{ pools := [{ id := 1, token_in_denom := "uusdc", token_out_denom := "uusdt" }] }]

/-- Concrete quote used by fee-validation witnesses: zero effective fee over
the single-hop fixture route. -/
def quote_fixture : QuoteResponse :=
  { amount_in := { denom := "uusdc", amount := 1000000 }
    amount_out := { denom := "uusdt", amount := 999000 }
    route := routes_fixture
    effective_fee := 0
    price_impact := 0
    in_base_out_quote_spot_price := 1 }

/-- Concrete fee source used by witnesses: every pair has taker fee zero. -/
def fee_source_fixture : String → String → Option ℚ :=
  fun _ _ => some 0

/-- States, following the words of the claim, that the quote has exactly one
route containing exactly one hop whose pool is classified as the
zero-slippage transmuter type; compared against the code-side detector
is_transmuter_in_single_route. -/
def spec_single_hop_transmuter (pool_by_id_map : String → Option NumiaPool)
    (routes : List Route) : Prop :=
  ∃ route hop pool, routes = [route] ∧ route.pools = [hop] ∧
    pool_by_id_map (toString hop.id) = some pool ∧
    get_e2e_pool_type_from_numia_pool pool = Except.ok E2EPoolType.COSMWASM_TRANSMUTER_V1

/-- C10: every tolerance the band function can return lies in the fixed set
\x7b0.07, 0.10, 0.13, 0.16\x7d, hence between 0.07 and 0.16. -/
theorem choose_error_tolerance_range (amount : ℤ) :
    (choose_error_tolerance amount = 7/100 ∨ choose_error_tolerance amount = 10/100 ∨
      choose_error_tolerance amount = 13/100 ∨ choose_error_tolerance amount = 16/100) ∧
    7/100 ≤ choose_error_tolerance amount ∧ choose_error_tolerance amount ≤ 16/100 := by
  unfold choose_error_tolerance
  split_ifs <;> norm_num

/-- C1 counterexample: the claim says the band lower bounds are inclusive, so
that the tolerance at exactly 10_000_000_000 would be 0.10; the code uses
strict greater-than comparisons and returns 0.07 there. -/
theorem choose_error_tolerance_boundary_exclusive :
    choose_error_tolerance 10000000000 = 7/100 ∧ (7/100 : ℚ) ≠ 10/100 := by
  constructor
  · unfold choose_error_tolerance
    norm_num
  · norm_num

/-- C1 amended: the band lower bounds are exclusive.  The tolerance is 0.07 for
amounts up to and including 10_000_000_000, then 0.10 up to and including
30_000_000_000, then 0.13 up to and including 60_000_000_000, then 0.16. -/
theorem choose_error_tolerance_bands (amount : ℤ) :
    (amount ≤ 10000000000 → choose_error_tolerance amount = 7/100) ∧
    (10000000000 < amount → amount ≤ 30000000000 → choose_error_tolerance amount = 10/100) ∧
    (30000000000 < amount → amount ≤ 60000000000 → choose_error_tolerance amount = 13/100) ∧
    (60000000000 < amount → choose_error_tolerance amount = 16/100) := by
  unfold choose_error_tolerance
  refine ⟨?_, ?_, ?_, ?_⟩ <;> intros <;> split_ifs <;> first | rfl | omega

/-- Witness for C1 amended: evaluates the band function strictly inside the
second band. -/
theorem choose_error_tolerance_bands_witness :
    choose_error_tolerance 20000000000 = 10/100 :=
  (choose_error_tolerance_bands 20000000000).2.1 (by norm_num) (by norm_num)

/-- C4 counterexample: with base tolerance t = 1/10 > 0 and price-impact
magnitude x = 1/10 ≥ 0 the code keeps the tolerance at 1/10 because the
widening branch only fires when x > t, while max(t, x * (1 + t)) = 11/100. -/
theorem adjust_for_price_impact_not_max :
    (0 : ℚ) < 1/10 ∧ (0 : ℚ) ≤ 1/10 ∧
    adjust_for_price_impact (1/10) (1/10) = 1/10 ∧
    max (1/10 : ℚ) ((1/10) * (1 + 1/10)) = 11/100 ∧
    (1/10 : ℚ) ≠ 11/100 := by
  refine ⟨by norm_num, by norm_num, ?_, ?_, by norm_num⟩
  · unfold adjust_for_price_impact
    norm_num
  · rw [max_eq_right (by norm_num)]
    norm_num

/-- C4 amended: for t > 0 and x ≥ 0 the widened tolerance equals
max(t, x * (1 + t)) when x > t, but it stays t whenever x ≤ t, even in the
region x ≤ t < x * (1 + t) where the claimed max formula would be larger. -/
theorem adjust_for_price_impact_characterization (t x : ℚ) (ht : 0 < t) (hx : 0 ≤ x) :
    (t < x → adjust_for_price_impact t x = max t (x * (1 + t))) ∧
    (x ≤ t → adjust_for_price_impact t x = t) := by
  constructor
  · intro h
    unfold adjust_for_price_impact
    rw [if_pos h, max_eq_right]
    nlinarith
  · intro h
    unfold adjust_for_price_impact
    rw [if_neg (not_lt.mpr h)]

/-- Witness for C4 amended: instantiates both branches at concrete inputs. -/
theorem adjust_for_price_impact_characterization_witness :
    adjust_for_price_impact (1/20) (1/10) = max (1/20) ((1/10) * (1 + 1/20)) :=
  (adjust_for_price_impact_characterization (1/20) (1/10) (by norm_num) (by norm_num)).1
    (by norm_num)

/-- C8 counterexample: relative_error(0, 0) does not evaluate to 0; the
denominator max(abs 0, abs 0) is zero, so the Python code raises
ZeroDivisionError, modelled here as none. -/
theorem relative_error_zero_zero_undefined : relative_error 0 0 = none := by
  unfold relative_error
  norm_num

/-- C8 amended: relative_error(x, x) = 0 for every nonzero x; on the diagonal
the computation is total except at x = 0, where the division is undefined. -/
theorem relative_error_diag_eq_zero (x : ℚ) (hx : x ≠ 0) : relative_error x x = some 0 := by
  unfold relative_error
  rw [if_neg, sub_self, abs_zero, zero_div]
  simp [abs_eq_zero, hx]

/-- Witness for C8 amended: evaluates relative_error on the diagonal at 3. -/
theorem relative_error_diag_eq_zero_witness : relative_error 3 3 = some 0 :=
  relative_error_diag_eq_zero 3 (by norm_num)

/-- C2 (code-bug evaluation): validate_pool_denoms_in_route accepts a hop
whose token in denom is a nonempty string without the synthetic marker and is
not a member of the pool denom set; the membership test against denoms was
dropped from the asserts, which only test truthiness of the denom string. -/
theorem validate_pool_denoms_ignores_membership :
    validate_pool_denoms_in_route "uosmo" "uatom" ["uatom", "uion"] 1 "uosmo" "uatom" =
      Except.ok () ∧
    "uosmo" ∉ (["uatom", "uion"] : List String) ∧
    contains_substr "uosmo" "all" = false := by
  refine ⟨rfl, by decide, rfl⟩

/-- C3 counterexample: at these concrete inputs both the spot-price comparison
and the counter-amount comparison are out of tolerance, yet the call verdict
carries only the spot-price violation and not the amount violation. -/
theorem validate_reports_only_first_violation :
    validate_spot_price_and_amount 1 1 2 1 2 (7/100) (1/100) =
      Except.error QuoteCheckError.spotPriceOutOfTolerance ∧
    assert_relative_error_lt (1 * 1) 2 (7/100) QuoteCheckError.spotPriceOutOfTolerance =
      Except.error QuoteCheckError.spotPriceOutOfTolerance ∧
    assert_relative_error_lt (1 * 1) 2 (adjust_for_price_impact (7/100) (1/100))
        QuoteCheckError.amountOutOfTolerance =
      Except.error QuoteCheckError.amountOutOfTolerance ∧
    validate_spot_price_and_amount 1 1 2 1 2 (7/100) (1/100) ≠
      Except.error QuoteCheckError.amountOutOfTolerance := by
  have hrel : relative_error ((1 : ℚ) * 1) 2 = some (1/2) := by
    norm_num [relative_error, max_def]
  have hadj : adjust_for_price_impact (7/100) (1/100) = 7/100 := by
    norm_num [adjust_for_price_impact]
  have hspot : assert_relative_error_lt (1 * 1) 2 (7/100)
      QuoteCheckError.spotPriceOutOfTolerance =
      Except.error QuoteCheckError.spotPriceOutOfTolerance := by
    unfold assert_relative_error_lt
    rw [hrel]
    norm_num
  have hamt : assert_relative_error_lt (1 * 1) 2 (adjust_for_price_impact (7/100) (1/100))
      QuoteCheckError.amountOutOfTolerance =
      Except.error QuoteCheckError.amountOutOfTolerance := by
    unfold assert_relative_error_lt
    rw [hrel, hadj]
    norm_num
  have h1 : validate_spot_price_and_amount 1 1 2 1 2 (7/100) (1/100) =
      Except.error QuoteCheckError.spotPriceOutOfTolerance := by
    unfold validate_spot_price_and_amount
    rw [hspot]
  refine ⟨h1, hspot, hamt, ?_⟩
  rw [h1]
  simp

/-- C3 amended: the two value comparisons run as sequential asserts, so
whenever the spot-price comparison fails the verification call aborts with the
spot-price violation alone; the amount comparison is never reported with it. -/
theorem validate_short_circuits_on_spot_price
    (spot scaling expected_spot amount expected_amount tolerance pi_pos err : ℚ)
    (h : relative_error (spot * scaling) expected_spot = some err)
    (h2 : ¬ err < tolerance) :
    validate_spot_price_and_amount spot scaling expected_spot amount expected_amount
      tolerance pi_pos = Except.error QuoteCheckError.spotPriceOutOfTolerance := by
  unfold validate_spot_price_and_amount assert_relative_error_lt
  rw [h]
  simp [h2]

/-- Witness for C3 amended: applies the short-circuit theorem at the inputs of
the counterexample. -/
theorem validate_short_circuits_on_spot_price_witness :
    validate_spot_price_and_amount 1 1 2 1 2 (7/100) (1/100) =
      Except.error QuoteCheckError.spotPriceOutOfTolerance :=
  validate_short_circuits_on_spot_price 1 1 2 1 2 (7/100) (1/100) (1/2)
    (by norm_num [relative_error]) (by norm_num)

/-- C7: the classifier maps the Balancer, Stableswap and Concentrated raw type
strings to their tags; for the CosmWasm raw type it dispatches on the embedded
code id, sending 148, 773 and 885 to Transmuter-V1, Astroport and Orderbook
and every other code id to CosmWasmMisc; every unrecognized raw type string
raises the fatal unknown-pool-type error. -/
theorem pool_classification (pool : NumiaPool) :
    (pool.type = NumiaPoolType_BALANCER →
      get_e2e_pool_type_from_numia_pool pool = Except.ok E2EPoolType.BALANCER) ∧
    (pool.type = NumiaPoolType_STABLESWAP →
      get_e2e_pool_type_from_numia_pool pool = Except.ok E2EPoolType.STABLESWAP) ∧
    (pool.type = NumiaPoolType_CONCENTRATED →
      get_e2e_pool_type_from_numia_pool pool = Except.ok E2EPoolType.CONCENTRATED) ∧
    (∀ cid : ℤ, pool.type = NumiaPoolType_COSMWASM → pool.code_id = some cid →
      get_e2e_pool_type_from_numia_pool pool =
        Except.ok (if cid = TRANSMUTER_CODE_ID then E2EPoolType.COSMWASM_TRANSMUTER_V1
          else if cid = ASTROPORT_CODE_ID then E2EPoolType.COSMWASM_ASTROPORT
          else if cid = ORDERBOOK_CODE_ID then E2EPoolType.COSMWASM_ORDERBOOK
          else E2EPoolType.COSMWASM_MISC)) ∧
    (pool.type ≠ NumiaPoolType_BALANCER → pool.type ≠ NumiaPoolType_STABLESWAP →
      pool.type ≠ NumiaPoolType_CONCENTRATED → pool.type ≠ NumiaPoolType_COSMWASM →
      get_e2e_pool_type_from_numia_pool pool =
        Except.error (ClassifyError.unknownPoolType pool.type)) := by
  refine ⟨?_, ?_, ?_, ?_, ?_⟩
  · intro h
    simp [get_e2e_pool_type_from_numia_pool, NUMIA_TO_E2E_MAP, h]
  · intro h
    simp [get_e2e_pool_type_from_numia_pool, NUMIA_TO_E2E_MAP, h,
      NumiaPoolType_STABLESWAP, NumiaPoolType_BALANCER]
  · intro h
    simp [get_e2e_pool_type_from_numia_pool, NUMIA_TO_E2E_MAP, h,
      NumiaPoolType_CONCENTRATED, NumiaPoolType_BALANCER, NumiaPoolType_STABLESWAP]
  · intro cid h hc
    simp [get_e2e_pool_type_from_numia_pool, NUMIA_TO_E2E_MAP, h, hc,
      NumiaPoolType_COSMWASM, NumiaPoolType_BALANCER, NumiaPoolType_STABLESWAP,
      NumiaPoolType_CONCENTRATED]
    split_ifs <;> rfl
  · intro h1 h2 h3 h4
    have hmap : NUMIA_TO_E2E_MAP pool.type = none := by
      unfold NUMIA_TO_E2E_MAP
      rw [if_neg h1, if_neg h2, if_neg h3]
    unfold get_e2e_pool_type_from_numia_pool
    rw [hmap, if_neg h4]

/-- Witness for C7: classifies the concrete transmuter pool fixture. -/
theorem pool_classification_witness :
    get_e2e_pool_type_from_numia_pool transmuter_pool_fixture =
      Except.ok (if (148 : ℤ) = TRANSMUTER_CODE_ID then E2EPoolType.COSMWASM_TRANSMUTER_V1
        else if (148 : ℤ) = ASTROPORT_CODE_ID then E2EPoolType.COSMWASM_ASTROPORT
        else if (148 : ℤ) = ORDERBOOK_CODE_ID then E2EPoolType.COSMWASM_ORDERBOOK
        else E2EPoolType.COSMWASM_MISC) :=
  (pool_classification transmuter_pool_fixture).2.2.2.1 148 rfl rfl

/-- Characterizes when the single-route transmuter detector answers true,
assuming it returns at all (the pool lookup and classification succeed). -/
lemma is_transmuter_some_true_iff (pm : String → Option NumiaPool)
    (routes : List Route) (b : Bool)
    (h : is_transmuter_in_single_route pm routes = some b) :
    b = true ↔ spec_single_hop_transmuter pm routes := by
  unfold spec_single_hop_transmuter
  rcases routes with _ | ⟨r, rest⟩
  · simp [is_transmuter_in_single_route] at h
    subst h
    constructor
    · intro hb; exact absurd hb (by simp)
    · rintro ⟨route, hop, pool, hr, -, -, -⟩; simp at hr
  · rcases rest with _ | ⟨r2, rest2⟩
    · rcases r with ⟨pools⟩
      rcases pools with _ | ⟨p, ptail⟩
      · simp [is_transmuter_in_single_route] at h
        subst h
        constructor
        · intro hb; exact absurd hb (by simp)
        · rintro ⟨route, hop, pool, hr, hp, -, -⟩
          simp at hr
          subst hr
          simp at hp
      · rcases ptail with _ | ⟨p2, ptail2⟩
        · cases hpm : pm (toString p.id) with
          | none => simp [is_transmuter_in_single_route, hpm] at h
          | some pool =>
            cases hcl : get_e2e_pool_type_from_numia_pool pool with
            | error e => simp [is_transmuter_in_single_route, hpm, hcl] at h
            | ok t =>
              simp only [is_transmuter_in_single_route, hpm, hcl] at h
              have hb : b = decide (t = E2EPoolType.COSMWASM_TRANSMUTER_V1) := by
                injection h with h2
                exact h2.symm
              subst hb
              by_cases ht : t = E2EPoolType.COSMWASM_TRANSMUTER_V1
              · subst ht
                constructor
                · intro _
                  exact ⟨⟨[p]⟩, p, pool, rfl, rfl, hpm, hcl⟩
                · intro _
                  simp
              · constructor
                · intro hcontra
                  rw [decide_eq_true_eq] at hcontra
                  exact absurd hcontra ht
                · rintro ⟨route, hop, pool2, hr, hp, hpm2, hcl2⟩
                  obtain rfl : route = ⟨[p]⟩ := by
                    injection hr with h1 _
                    exact h1.symm
                  obtain rfl : hop = p := by
                    have hp2 : ([p] : List PoolHop) = [hop] := hp
                    injection hp2 with h1 _
                    exact h1.symm
                  rw [hpm] at hpm2
                  injection hpm2 with hpool
                  subst hpool
                  rw [hcl] at hcl2
                  injection hcl2 with ht2
                  exact absurd ht2 ht
        · simp [is_transmuter_in_single_route] at h
          subst h
          constructor
          · intro hb; exact absurd hb (by simp)
          · rintro ⟨route, hop, pool, hr, hp, -, -⟩
            simp at hr
            subst hr
            simp at hp
    · simp [is_transmuter_in_single_route] at h
      subst h
      constructor
      · intro hb; exact absurd hb (by simp)
      · rintro ⟨route, hop, pool, hr, -, -, -⟩
        simp at hr

/-- C5: whenever the transmuter detector returns an answer, the price-impact
assertion passes exactly when either the quote is a single-route single-hop
transmuter quote with price impact exactly zero, or it is not such a quote and
the price impact is strictly negative; every other combination fails. -/
theorem price_impact_invariant (pm : String → Option NumiaPool) (routes : List Route)
    (price_impact : ℚ) (b : Bool)
    (h : is_transmuter_in_single_route pm routes = some b) :
    price_impact_sign_check b price_impact = true ↔
      (spec_single_hop_transmuter pm routes ∧ price_impact = 0) ∨
      (¬ spec_single_hop_transmuter pm routes ∧ price_impact < 0) := by
  have hb := is_transmuter_some_true_iff pm routes b h
  cases b with
  | false =>
    have hnot : ¬ spec_single_hop_transmuter pm routes := by
      intro hs
      have hfalse := hb.mpr hs
      simp at hfalse
    simp [price_impact_sign_check, hnot]
  | true =>
    have hs := hb.mp rfl
    simp [price_impact_sign_check, hs]

/-- Witness for C5: the single-hop transmuter fixture with price impact zero
passes the price-impact assertion. -/
theorem price_impact_invariant_witness :
    (spec_single_hop_transmuter pool_map_fixture routes_fixture ∧ (0 : ℚ) = 0) ∨
    (¬ spec_single_hop_transmuter pool_map_fixture routes_fixture ∧ (0 : ℚ) < 0) :=
  (price_impact_invariant pool_map_fixture routes_fixture 0 true rfl).mp
    (by simp [price_impact_sign_check])

/-- Characterizes the inner fee walk of a single route: when every consulted
pair has an available sourced fee, the walk passes exactly when every
consulted pair has sourced fee zero. -/
lemma validate_fee_pools_ok_iff (fs : String → String → Option ℚ) (ef : ℚ) :
    ∀ (pools : List PoolHop) (cur : String),
    (∀ pr ∈ route_fee_pairs cur pools, (fs pr.1 pr.2).isSome) →
    (validate_fee_pools fs ef cur pools = Except.ok () ↔
      ∀ pr ∈ route_fee_pairs cur pools, fs pr.1 pr.2 = some 0) := by
  intro pools
  induction pools with
  | nil =>
    intro cur _
    simp [validate_fee_pools, route_fee_pairs]
  | cons pool rest ih =>
    intro cur havail
    have hmem : ((cur, pool.token_out_denom) : String × String) ∈
        route_fee_pairs cur (pool :: rest) := by
      simp [route_fee_pairs]
    cases hfs : fs cur pool.token_out_denom with
    | none =>
      have hsome := havail (cur, pool.token_out_denom) hmem
      rw [hfs] at hsome
      simp at hsome
    | some f =>
      have havail2 : ∀ pr ∈ route_fee_pairs pool.token_out_denom rest, (fs pr.1 pr.2).isSome := by
        intro pr hpr
        exact havail pr (by simp [route_fee_pairs, hpr])
      by_cases hf : f = 0
      · subst hf
        have hstep : validate_fee_pools fs ef cur (pool :: rest) =
            validate_fee_pools fs ef pool.token_out_denom rest := by
          simp [validate_fee_pools, Quote_validate_fee, hfs]
        rw [hstep, ih pool.token_out_denom havail2]
        constructor
        · intro hall
          intro pr hpr
          simp only [route_fee_pairs, List.mem_cons] at hpr
          rcases hpr with hpr | hpr
          · subst hpr
            rw [hfs]
          · exact hall pr hpr
        · intro hall pr hpr
          exact hall pr (by simp [route_fee_pairs, hpr])
      · have hstep : validate_fee_pools fs ef cur (pool :: rest) =
            Except.error (FeeError.nonZeroTakerFee pool.id) := by
          simp [validate_fee_pools, Quote_validate_fee, hfs, hf]
        rw [hstep]
        constructor
        · intro hcontra
          exact absurd hcontra (by simp)
        · intro hall
          have h0 := hall (cur, pool.token_out_denom) hmem
          rw [hfs] at h0
          injection h0 with h0
          exact absurd h0 hf

/-- Lifts the per-route fee walk characterization to the whole quote: when
every consulted pair has an available sourced fee, the route loop passes
exactly when every consulted pair of every route has sourced fee zero. -/
lemma validate_fee_routes_ok_iff (fs : String → String → Option ℚ) (ef : ℚ)
    (tin : String) :
    ∀ routes : List Route,
    (∀ pr ∈ quote_fee_pairs tin routes, (fs pr.1 pr.2).isSome) →
    (validate_fee_routes fs ef tin routes = Except.ok () ↔
      ∀ pr ∈ quote_fee_pairs tin routes, fs pr.1 pr.2 = some 0) := by
  intro routes
  induction routes with
  | nil =>
    intro _
    simp [validate_fee_routes, quote_fee_pairs]
  | cons route rest ih =>
    intro havail
    have havail1 : ∀ pr ∈ route_fee_pairs tin route.pools, (fs pr.1 pr.2).isSome := by
      intro pr hpr
      exact havail pr (by simp [quote_fee_pairs, hpr])
    have havail2 : ∀ pr ∈ quote_fee_pairs tin rest, (fs pr.1 pr.2).isSome := by
      intro pr hpr
      exact havail pr (by simp [quote_fee_pairs, hpr])
    have hhead := validate_fee_pools_ok_iff fs ef route.pools tin havail1
    cases hv : validate_fee_pools fs ef tin route.pools with
    | error e =>
      have hstep : validate_fee_routes fs ef tin (route :: rest) = Except.error e := by
        simp [validate_fee_routes, hv]
      rw [hstep]
      constructor
      · intro hcontra
        exact absurd hcontra (by simp)
      · intro hall
        have hok : validate_fee_pools fs ef tin route.pools = Except.ok () := by
          rw [hhead]
          intro pr hpr
          exact hall pr (by simp [quote_fee_pairs, hpr])
        rw [hv] at hok
        exact absurd hok (by simp)
    | ok u =>
      cases u
      have hstep : validate_fee_routes fs ef tin (route :: rest) =
          validate_fee_routes fs ef tin rest := by
        simp [validate_fee_routes, hv]
      rw [hstep, ih havail2]
      constructor
      · intro hall pr hpr
        simp only [quote_fee_pairs, List.mem_append] at hpr
        rcases hpr with hpr | hpr
        · exact (hhead.mp hv) pr hpr
        · exact hall pr hpr
      · intro hall pr hpr
        exact hall pr (by simp [quote_fee_pairs, hpr])

/-- C6: fee validation is asymmetric.  A positive effective fee passes with no
reference to the external fee source (the conclusion holds for every fee
source); a zero effective fee makes the validator walk every hop of every
route, and, when every consulted pairwise fee is available, it passes exactly
when every such externally sourced fee is zero. -/
theorem fee_validation_asymmetry (fs : String → String → Option ℚ)
    (quote : QuoteResponse) :
    (0 < quote.effective_fee → ExactAmountInQuote_validate_fee fs quote = Except.ok ()) ∧
    (quote.effective_fee = 0 →
      (∀ pr ∈ quote_fee_pairs quote.amount_in.denom quote.route, (fs pr.1 pr.2).isSome) →
      (ExactAmountInQuote_validate_fee fs quote = Except.ok () ↔
        ∀ pr ∈ quote_fee_pairs quote.amount_in.denom quote.route, fs pr.1 pr.2 = some 0)) := by
  constructor
  · intro hpos
    unfold ExactAmountInQuote_validate_fee
    rw [if_neg (ne_of_gt hpos), if_pos hpos]
  · intro h0 havail
    unfold ExactAmountInQuote_validate_fee
    rw [if_pos h0]
    exact validate_fee_routes_ok_iff fs quote.effective_fee quote.amount_in.denom
      quote.route havail

/-- Witness for C6: the zero-fee fixture quote passes against a fee source
that reports fee zero for every pair. -/
theorem fee_validation_asymmetry_witness :
    ExactAmountInQuote_validate_fee fee_source_fixture quote_fixture = Except.ok () :=
  ((fee_validation_asymmetry fee_source_fixture quote_fixture).2 rfl
      (by intro pr _; simp [fee_source_fixture])).mpr
    (by intro pr _; rfl)

/-- Characterizes the non-direct route loop: it passes exactly when, for every
route, the per-hop checks pass and the per-route endpoint assert holds (the
route's last token in equals the request input denom). -/
lemma validate_route_list_false_ok_iff (pm : String → Option NumiaPool)
    (din dout : String) :
    ∀ routes : List Route,
    (validate_route_list pm routes din dout false = Except.ok () ↔
      ∀ r ∈ routes, validate_route_hops pm r.pools dout din dout = Except.ok () ∧
        din = get_last_route_token_in r) := by
  intro routes
  induction routes with
  | nil => simp [validate_route_list]
  | cons route rest ih =>
    cases hv : validate_route_hops pm route.pools dout din dout with
    | error e =>
      have hstep : validate_route_list pm (route :: rest) din dout false = Except.error e := by
        simp [validate_route_list, hv]
      rw [hstep]
      constructor
      · intro hcontra
        exact absurd hcontra (by simp)
      · intro hall
        have hok := (hall route (by simp)).1
        rw [hv] at hok
        exact absurd hok (by simp)
    | ok u =>
      cases u
      by_cases hd : din = get_last_route_token_in route
      · have hstep : validate_route_list pm (route :: rest) din dout false =
            validate_route_list pm rest din dout false := by
          simp only [validate_route_list, hv, Bool.false_eq_true, if_false]
          rw [if_pos hd]
        rw [hstep, ih]
        constructor
        · intro hall r hr
          simp only [List.mem_cons] at hr
          rcases hr with hr | hr
          · subst hr
            exact ⟨hv, hd⟩
          · exact hall r hr
        · intro hall r hr
          exact hall r (by simp [hr])
      · have hstep : validate_route_list pm (route :: rest) din dout false =
            Except.error (RouteError.lastRouteTokenInMismatch din) := by
          simp only [validate_route_list, hv, Bool.false_eq_true, if_false]
          rw [if_neg hd]
        rw [hstep]
        constructor
        · intro hcontra
          exact absurd hcontra (by simp)
        · intro hall
          exact absurd (hall route (by simp)).2 hd

/-- Characterizes the direct-quote route loop: the per-route endpoint asserts
are skipped, so it passes exactly when the per-hop checks of every route
pass. -/
lemma validate_route_list_true_ok_iff (pm : String → Option NumiaPool)
    (din dout : String) :
    ∀ routes : List Route,
    (validate_route_list pm routes din dout true = Except.ok () ↔
      ∀ r ∈ routes, validate_route_hops pm r.pools dout din dout = Except.ok ()) := by
  intro routes
  induction routes with
  | nil => simp [validate_route_list]
  | cons route rest ih =>
    cases hv : validate_route_hops pm route.pools dout din dout with
    | error e =>
      have hstep : validate_route_list pm (route :: rest) din dout true = Except.error e := by
        simp [validate_route_list, hv]
      rw [hstep]
      constructor
      · intro hcontra
        exact absurd hcontra (by simp)
      · intro hall
        have hok := hall route (by simp)
        rw [hv] at hok
        exact absurd hok (by simp)
    | ok u =>
      cases u
      have hstep : validate_route_list pm (route :: rest) din dout true =
          validate_route_list pm rest din dout true := by
        simp [validate_route_list, hv]
      rw [hstep, ih]
      constructor
      · intro hall r hr
        simp only [List.mem_cons] at hr
        rcases hr with hr | hr
        · subst hr
          exact hv
        · exact hall r hr
      · intro hall r hr
        exact hall r (by simp [hr])

/-- C9: for a non-direct quote the route validator applies, per route, both
the per-hop checks and the endpoint check that the route's walk terminates at
the request input denom; for a direct quote the per-route endpoint checks are
skipped and a single endpoint check is made once against the whole
multi-route quote. -/
theorem route_endpoint_check_direct_vs_non_direct (pm : String → Option NumiaPool)
    (quote : QuoteResponse) (denom_in denom_out : String) :
    (ExactAmountOutQuote_validate_route pm quote denom_in denom_out false = Except.ok () ↔
      ∀ r ∈ quote.route,
        validate_route_hops pm r.pools denom_out denom_in denom_out = Except.ok () ∧
        denom_in = get_last_route_token_in r) ∧
    (ExactAmountOutQuote_validate_route pm quote denom_in denom_out true = Except.ok () ↔
      (∀ r ∈ quote.route,
        validate_route_hops pm r.pools denom_out denom_in denom_out = Except.ok ()) ∧
      denom_in = get_last_quote_route_token_in quote) := by
  constructor
  · have hiff := validate_route_list_false_ok_iff pm denom_in denom_out quote.route
    cases hlist : validate_route_list pm quote.route denom_in denom_out false with
    | error e =>
      have hstep : ExactAmountOutQuote_validate_route pm quote denom_in denom_out false =
          Except.error e := by
        simp [ExactAmountOutQuote_validate_route, hlist]
      rw [hstep]
      constructor
      · intro hcontra
        exact absurd hcontra (by simp)
      · intro hall
        have hok := hiff.mpr hall
        rw [hlist] at hok
        exact absurd hok (by simp)
    | ok u =>
      cases u
      have hstep : ExactAmountOutQuote_validate_route pm quote denom_in denom_out false =
          Except.ok () := by
        simp [ExactAmountOutQuote_validate_route, hlist]
      rw [hstep]
      constructor
      · intro _
        exact hiff.mp hlist
      · intro _
        rfl
  · have hiff := validate_route_list_true_ok_iff pm denom_in denom_out quote.route
    cases hlist : validate_route_list pm quote.route denom_in denom_out true with
    | error e =>
      have hstep : ExactAmountOutQuote_validate_route pm quote denom_in denom_out true =
          Except.error e := by
        simp [ExactAmountOutQuote_validate_route, hlist]
      rw [hstep]
      constructor
      · intro hcontra
        exact absurd hcontra (by simp)
      · intro hall
        have hok := hiff.mpr hall.1
        rw [hlist] at hok
        exact absurd hok (by simp)
    | ok u =>
      cases u
      by_cases hq : denom_in = get_last_quote_route_token_in quote
      · have hstep : ExactAmountOutQuote_validate_route pm quote denom_in denom_out true =
            Except.ok () := by
          simp only [ExactAmountOutQuote_validate_route, hlist, if_true]
          rw [if_pos hq]
        rw [hstep]
        constructor
        · intro _
          exact ⟨hiff.mp hlist, hq⟩
        · intro _
          rfl
      · have hstep : ExactAmountOutQuote_validate_route pm quote denom_in denom_out true =
            Except.error (RouteError.lastQuoteTokenInMismatch denom_in) := by
          simp only [ExactAmountOutQuote_validate_route, hlist, if_true]
          rw [if_neg hq]
        rw [hstep]
        constructor
        · intro hcontra
          exact absurd hcontra (by simp)
        · intro hall
          exact absurd hall.2 hq
